import Mathlib

/-!
Verification development for the info-bot video query pipeline
(`video_query.py` and `server.py`).

The Python code is shallowly embedded: dictionaries with optional keys
become structures with `Option` fields, Python floats become `ℚ`
(all values the program ever compares or formats are exact decimals),
Python `None`-returning lookups become `Option`, and the filesystem and
the remote model call are passed in explicitly as an environment record.
-/

namespace InfoBot

/-- A transcript or caption entry.  In the JSON data these are dictionaries
that may lack the `start`, `end` or `text` keys; the code reads them with
`dict.get(key, default)`, so the keys are modelled as `Option` fields. -/
structure Entry where
  start : Option ℚ
  «end» : Option ℚ
  text : Option String
deriving DecidableEq

/-- One scene record of the manifest (`scene_info.json`).  The code indexes
`scene_number`, `start_time`, `end_time` and `duration` directly (a missing
key would raise), and reads `scene_path`, `transcript` and `captions` with
`dict.get` and defaults `""` / `[]`; the defaulted reads are modelled by
plain fields holding the defaulted value. -/
structure SceneRecord where
  scene_number : ℤ
  start_time : ℚ
  end_time : ℚ
  duration : ℚ
  scene_path : String
  transcript : List Entry
  captions : List Entry
deriving DecidableEq

/-- Python `int(x)` on a float: truncation toward zero. -/
def intTrunc (q : ℚ) : Int := if q < 0 then Int.ceil q else Int.floor q

/-- Helper for `twoDec`: fixed-point rendering of a nonnegative rational
with exactly two decimal digits (`500 ↦ "5.00"` style, input in cents). -/
def centsRender (cents : ℕ) : String :=
  toString (cents / 100) ++ "."
    ++ (if cents % 100 < 10 then "0" else "") ++ toString (cents % 100)

/-- Python's `f"{x:.2f}"` format specifier: two-decimal fixed point.
Python rounds the underlying binary float half-to-even; every value the
program formats in the claims is an exact multiple of 1/100, where no
rounding occurs, so the tie-breaking rule is immaterial and rounding is
modelled half-up. -/
def twoDec (q : ℚ) : String :=
  if q < 0 then "-" ++ centsRender (Int.toNat ⌊-q * 100 + 1/2⌋)
  else centsRender (Int.toNat ⌊q * 100 + 1/2⌋)

/-- Python's `str` on the float timestamp (used in the `QUERY TIMESTAMP`
line and the scene-not-found message).  The exact digit string of `str` is
never compared by the program; it is modelled by the canonical rendering
of the rational. -/
def ratStr (q : ℚ) : String := toString q

/-- `find_scene_for_timestamp(scene_info, timestamp)`
(video_query.py lines 10-15): scan the manifest in order and return the
first scene whose half-open interval contains the timestamp; `None` when
no scene matches. -/
def find_scene_for_timestamp (scene_info : List SceneRecord) (timestamp : ℚ) :
    Option SceneRecord :=
  match scene_info with
  | [] => none
  | scene :: rest =>
    if scene.start_time ≤ timestamp ∧ timestamp < scene.end_time then some scene
    else find_scene_for_timestamp rest timestamp

/-- Crash-faithful model of `get_context_from_previous_scene(scene_info,
current_scene)` (video_query.py lines 17-22).  `current_index =
scene_number - 1`; when it is positive the code returns
`scene_info[current_index - 1]`, which raises an uncaught `IndexError`
when that index is out of range (`.error`); otherwise it returns `None`
(`.ok none`). -/
def get_context_from_previous_scene_checked (scene_info : List SceneRecord)
    (current_scene : SceneRecord) : Except String (Option SceneRecord) :=
  let current_index : ℤ := current_scene.scene_number - 1
  if 0 < current_index then
    match scene_info.get? (current_index - 1).toNat with
    | some prev => Except.ok (some prev)
    | none => Except.error "IndexError: list index out of range"
  else Except.ok none

/-- `Option`-valued projection of `get_context_from_previous_scene`: same
index arithmetic, with the out-of-range crash collapsed to `none` (an
`Option` result cannot carry the `IndexError`;
`get_context_from_previous_scene_checked` is the crash-faithful model).
The theorems below use this projection only under hypotheses that keep the
index in range — where it agrees with the checked model, see
`c2_amended` — or at concrete in-range inputs. -/
def get_context_from_previous_scene (scene_info : List SceneRecord)
    (current_scene : SceneRecord) : Option SceneRecord :=
  let current_index : ℤ := current_scene.scene_number - 1
  if 0 < current_index then scene_info.get? (current_index - 1).toNat
  else none

/-- The rendering of one transcript/caption entry:
`f"[{t.get('start', 0):.2f}s - {t.get('end', 0):.2f}s]: {t.get('text', '')}"`
(the identical comprehension body of video_query.py lines 29 and 37). -/
def entryLine (t : Entry) : String :=
  "[" ++ twoDec (t.start.getD 0) ++ "s - " ++ twoDec (t.«end».getD 0)
    ++ "s]: " ++ t.text.getD ""

/-- `format_transcript(transcript_list)` (video_query.py lines 24-30). -/
def format_transcript (transcript_list : List Entry) : String :=
  if transcript_list.isEmpty then "No transcript available."
  else
    String.intercalate "\n"
      (transcript_list.map fun t =>
        "[" ++ twoDec (t.start.getD 0) ++ "s - " ++ twoDec (t.«end».getD 0)
          ++ "s]: " ++ t.text.getD "")

/-- `format_captions(captions_list)` (video_query.py lines 32-38). -/
def format_captions (captions_list : List Entry) : String :=
  if captions_list.isEmpty then "No captions available."
  else
    String.intercalate "\n"
      (captions_list.map fun c =>
        "[" ++ twoDec (c.start.getD 0) ++ "s - " ++ twoDec (c.«end».getD 0)
          ++ "s]: " ++ c.text.getD "")

/-- The context text assembled in `query_video_scene_with_api`
(video_query.py lines 78-101), built by successive `+=` in source order:
current-scene header, transcript block, caption block, then — only when a
previous scene is available — the previous-scene block. -/
def scene_info_text (scene : SceneRecord) (prev_scene : Option SceneRecord)
    (timestamp : ℚ) : String :=
  let t0 :=
    "SCENE NUMBER: " ++ toString scene.scene_number ++ "\n"
      ++ "TIMESTAMP RANGE: " ++ twoDec scene.start_time ++ "s - "
      ++ twoDec scene.end_time ++ "s\n"
      ++ "DURATION: " ++ twoDec scene.duration ++ "s\n"
      ++ "QUERY TIMESTAMP: " ++ ratStr timestamp ++ "s (within this scene)\n\n"
  let t1 := t0 ++ "SCENE TRANSCRIPT:\n"
  let t2 := t1 ++ format_transcript scene.transcript ++ "\n\n"
  let t3 := t2 ++ "SCENE CAPTIONS:\n"
  let t4 := t3 ++ format_captions scene.captions ++ "\n\n"
  match prev_scene with
  | some prev =>
    t4 ++ "PREVIOUS SCENE INFORMATION:\n"
      ++ "SCENE NUMBER: " ++ toString prev.scene_number ++ "\n"
      ++ "TIMESTAMP RANGE: " ++ twoDec prev.start_time ++ "s - "
      ++ twoDec prev.end_time ++ "s\n"
      ++ "TRANSCRIPT:\n" ++ format_transcript prev.transcript ++ "\n"
      ++ "CAPTIONS:\n" ++ format_captions prev.captions ++ "\n\n"
  | none => t4

/-- The message of one choice of a chat completion; `content` may be null. -/
structure Message where
  content : Option String
deriving DecidableEq

/-- One choice of a chat completion response. -/
structure Choice where
  message : Message
deriving DecidableEq

/-- A chat completion response: a list of choices. -/
structure Completion where
  choices : List Choice
deriving DecidableEq

/-- Outcome of the remote `client.chat.completions.create` call: either it
returns a completion object or it raises an exception carrying `str(e)`. -/
inductive ApiResult where
  | success (completion : Completion)
  | failure (err : String)
deriving DecidableEq

/-- The `try`/`except` region of video_query.py lines 127-147, restricted to
what happens after the call: `completion.choices[0].message.content` is
returned; indexing an empty `choices` raises `IndexError("list index out of
range")`, which the generic `except` turns into the error string, as does an
exception raised by the call itself.  A null `content` is returned as-is
(Python `None`), modelled by `none`. -/
def extract_response (r : ApiResult) : Option String :=
  match r with
  | .failure e => some ("Error calling API: " ++ e)
  | .success c =>
    match c.choices with
    | [] => some ("Error calling API: " ++ "list index out of range")
    | ch :: _ => ch.message.content

/-- The manifest path computed at video_query.py line 43:
`f"videos/{video_id}/{video_id}_scenes_new/scene_info.json"`. -/
def scene_info_path (video_id : String) : String :=
  "videos/" ++ video_id ++ "/" ++ video_id ++ "_scenes_new/scene_info.json"

/-- The ambient world of one query: the parsed manifest file by path (absent
file ↦ `none`), filesystem existence of clip paths, and the outcome of the
single remote model call. -/
structure Env where
  manifestAt : String → Option (List SceneRecord)
  pathExists : String → Bool
  api : ApiResult

/-- `query_video_scene_with_api(video_id, timestamp, query)`
(video_query.py lines 40-147).  Returns the Python return value: error
strings and the extracted answer are `some`, the `None` produced by a null
message content is `none`.  The prompt text and the base64-encoded clip are
assembled from `scene_info_text` and the clip bytes but do not affect the
returned value, which depends only on the environment's call outcome. -/
def query_video_scene_with_api (env : Env) (video_id : String) (timestamp : ℚ)
    (query : String) : Option String :=
  match env.manifestAt (scene_info_path video_id) with
  | none => some "Scene information not found for this video."
  | some scene_info =>
    match find_scene_for_timestamp scene_info timestamp with
    | none =>
      some ("No scene was found for timestamp " ++ ratStr timestamp
        ++ "s in this video.")
    | some scene =>
      if !(env.pathExists scene.scene_path) then
        some ("Video file for scene " ++ toString scene.scene_number
          ++ " not found.")
      else
        extract_response env.api

/-- The standalone output path computed at video_query.py line 164:
`f"{args.video_id}_query_{int(args.timestamp)}s.txt"`. -/
def output_file (video_id : String) (timestamp : ℚ) : String :=
  video_id ++ "_query_" ++ toString (intTrunc timestamp) ++ "s.txt"

/-- The result path the serving layer reads back, server.py line 102:
`f"videos/{video_id}/{video_id}_query_{int(float(current_time))}s.txt"`
(`current_time` reaches the subprocess through `argparse` with
`type=float`, so both sides truncate the same numeric value). -/
def response_file (video_id : String) (current_time : ℚ) : String :=
  "videos/" ++ video_id ++ "/" ++ video_id ++ "_query_"
    ++ toString (intTrunc current_time) ++ "s.txt"

/-- `main()` (video_query.py lines 149-167) minus argument parsing: compute
the response and unconditionally write it to `output_file`.  `.ok (path,
content)` records that a file was written at `path` with `content`;
`.error` records the `TypeError` crash of `f.write(None)` when the response
is Python `None` (no content is written then). -/
def main (env : Env) (video_id : String) (timestamp : ℚ) (query : String) :
    Except String (String × String) :=
  match query_video_scene_with_api env video_id timestamp query with
  | some response => Except.ok (output_file video_id timestamp, response)
  | none => Except.error "TypeError: write() argument must be str, not None"

/-- Whether a scene's half-open interval `[start_time, end_time)` contains a
timestamp — the guard of `find_scene_for_timestamp`. -/
def scene_contains (scene : SceneRecord) (timestamp : ℚ) : Prop :=
  scene.start_time ≤ timestamp ∧ timestamp < scene.end_time

instance (s : SceneRecord) (t : ℚ) : Decidable (scene_contains s t) := by
  unfold scene_contains; infer_instance

/-- The spec's current-scene block (§4.3): the six current-scene fields in
the order the spec fixes them — scene number, time range, duration, query
timestamp, transcript block, caption block. -/
def currentBlockSpec (scene : SceneRecord) (timestamp : ℚ) : String :=
  String.join
    ["SCENE NUMBER: " ++ toString scene.scene_number ++ "\n",
     "TIMESTAMP RANGE: " ++ twoDec scene.start_time ++ "s - "
       ++ twoDec scene.end_time ++ "s\n",
     "DURATION: " ++ twoDec scene.duration ++ "s\n",
     "QUERY TIMESTAMP: " ++ ratStr timestamp ++ "s (within this scene)\n\n",
     "SCENE TRANSCRIPT:\n" ++ format_transcript scene.transcript ++ "\n\n",
     "SCENE CAPTIONS:\n" ++ format_captions scene.captions ++ "\n\n"]

/-- The spec's previous-scene block (§4.3): a labelled block with the
previous scene's number, range, transcript and captions. -/
def prevBlockSpec (prev : SceneRecord) : String :=
  String.join
    ["PREVIOUS SCENE INFORMATION:\n",
     "SCENE NUMBER: " ++ toString prev.scene_number ++ "\n",
     "TIMESTAMP RANGE: " ++ twoDec prev.start_time ++ "s - "
       ++ twoDec prev.end_time ++ "s\n",
     "TRANSCRIPT:\n" ++ format_transcript prev.transcript ++ "\n",
     "CAPTIONS:\n" ++ format_captions prev.captions ++ "\n\n"]

/-- Scene 1 of the spec's end-to-end example manifest: interval [0, 5). -/
def exScene1 : SceneRecord :=
  { scene_number := 1, start_time := 0, end_time := 5, duration := 5,
    scene_path := "videos/vid/s1.mp4", transcript := [], captions := [] }

/-- Scene 2 of the spec's end-to-end example manifest: interval [5, 12). -/
def exScene2 : SceneRecord :=
  { scene_number := 2, start_time := 5, end_time := 12, duration := 7,
    scene_path := "videos/vid/s2.mp4", transcript := [], captions := [] }

/-- Scene 3 of the spec's end-to-end example manifest: interval [12, 20). -/
def exScene3 : SceneRecord :=
  { scene_number := 3, start_time := 12, end_time := 20, duration := 8,
    scene_path := "videos/vid/s3.mp4", transcript := [], captions := [] }

/-- The spec's end-to-end example manifest `[{1, 0–5s}, {2, 5–12s},
{3, 12–20s}]`. -/
def exManifest : List SceneRecord := [exScene1, exScene2, exScene3]

/-- An environment in which no manifest file exists for any path. -/
def envNoManifest : Env :=
  { manifestAt := fun _ => none,
    pathExists := fun _ => false,
    api := ApiResult.failure "unreachable" }

/-- An environment holding the example manifest and clips, whose remote
call returns one choice with null message content. -/
def envNullContent : Env :=
  { manifestAt := fun _ => some exManifest,
    pathExists := fun _ => true,
    api := ApiResult.success ⟨[⟨⟨none⟩⟩]⟩ }

/-- An environment holding the example manifest and clips, whose remote
call raises an exception rendered as "boom". -/
def envApiFailure : Env :=
  { manifestAt := fun _ => some exManifest,
    pathExists := fun _ => true,
    api := ApiResult.failure "boom" }

lemma twoDec_zero : twoDec 0 = "0.00" := by
  have h : (⌊(0 : ℚ) * 100 + 1/2⌋ : ℤ) = 0 := by norm_num
  simp only [twoDec, h]
  decide

/-- C8: `format_transcript` and `format_captions` on the empty list each
return their non-empty "no data" sentinel line, not the empty string. -/
theorem c8_empty_sentinels :
    format_transcript [] = "No transcript available."
    ∧ format_captions [] = "No captions available."
    ∧ format_transcript [] ≠ ""
    ∧ format_captions [] ≠ "" := by
  refine ⟨rfl, rfl, ?_, ?_⟩ <;> decide

/-- C10: the formatters are total over entries missing the `start`, `end`
or `text` keys: every list renders as the newline-joined per-entry lines
(or the sentinel when empty), and an entry missing all three keys renders
with the defaults 0 (as "0.00") for the times and "" for the text. -/
theorem c10_missing_keys :
    (∀ l, format_transcript l =
      if l.isEmpty then "No transcript available."
      else String.intercalate "\n" (l.map entryLine))
    ∧ (∀ l, format_captions l =
      if l.isEmpty then "No captions available."
      else String.intercalate "\n" (l.map entryLine))
    ∧ (∀ e : Entry, e.start = none → e.«end» = none → e.text = none →
      entryLine e = "[0.00s - 0.00s]: ") := by
  refine ⟨fun l => rfl, fun l => rfl, fun e h1 h2 h3 => ?_⟩
  simp only [entryLine, h1, h2, h3, Option.getD_none, twoDec_zero]
  decide

/-- Witness for C10: the all-keys-missing entry evaluates to the defaulted
line. -/
theorem c10_missing_keys_witness :
    entryLine ⟨none, none, none⟩ = "[0.00s - 0.00s]: " :=
  c10_missing_keys.2.2 ⟨none, none, none⟩ rfl rfl rfl

lemma string_empty_append (s : String) : "" ++ s = s := rfl

/-- C7: the assembled context text is exactly the spec's current-scene
block followed by the spec's previous-scene block, so every current-scene
field precedes every previous-scene field; with no previous scene the
previous-scene block is omitted entirely. -/
theorem c7_context_order :
    (∀ s t, scene_info_text s none t = currentBlockSpec s t)
    ∧ (∀ s p t, scene_info_text s (some p) t
        = currentBlockSpec s t ++ prevBlockSpec p) := by
  constructor
  · intro s t
    simp only [scene_info_text, currentBlockSpec, String.join,
      List.foldl_cons, List.foldl_nil, string_empty_append,
      String.append_assoc]
  · intro s p t
    simp only [scene_info_text, currentBlockSpec, prevBlockSpec, String.join,
      List.foldl_cons, List.foldl_nil, string_empty_append,
      String.append_assoc]

lemma find_scene_cons (s : SceneRecord) (rest : List SceneRecord) (t : ℚ) :
    find_scene_for_timestamp (s :: rest) t =
      if scene_contains s t then some s
      else find_scene_for_timestamp rest t := by
  simp [find_scene_for_timestamp, scene_contains]

lemma find_scene_none_iff (m : List SceneRecord) (t : ℚ) :
    find_scene_for_timestamp m t = none ↔ ∀ x ∈ m, ¬ scene_contains x t := by
  induction m with
  | nil => simp [find_scene_for_timestamp]
  | cons a rest ih =>
    rw [find_scene_cons]
    by_cases h : scene_contains a t
    · simp [h]
    · simp [h, ih]

lemma find_scene_some_iff (m : List SceneRecord) (t : ℚ) (s : SceneRecord) :
    find_scene_for_timestamp m t = some s ↔
      ∃ l₁ l₂, m = l₁ ++ s :: l₂ ∧ scene_contains s t
        ∧ ∀ x ∈ l₁, ¬ scene_contains x t := by
  induction m with
  | nil =>
    simp only [find_scene_for_timestamp]
    constructor
    · intro h; cases h
    · rintro ⟨l₁, l₂, heq, -, -⟩
      exact absurd heq.symm (List.append_ne_nil_of_right_ne_nil l₁ (by simp))
  | cons a rest ih =>
    rw [find_scene_cons]
    by_cases h : scene_contains a t
    · rw [if_pos h]
      constructor
      · intro heq
        obtain rfl : a = s := by injection heq
        exact ⟨[], rest, rfl, h, by simp⟩
      · rintro ⟨l₁, l₂, heq, hs, hnone⟩
        cases l₁ with
        | nil =>
          obtain ⟨rfl, -⟩ : a = s ∧ rest = l₂ := by simpa using heq
          rfl
        | cons b l₁ =>
          obtain ⟨rfl, -⟩ : a = b ∧ rest = l₁ ++ s :: l₂ := by simpa using heq
          exact absurd h (hnone a (by simp))
    · rw [if_neg h, ih]
      constructor
      · rintro ⟨l₁, l₂, rfl, hs, hnone⟩
        refine ⟨a :: l₁, l₂, rfl, hs, ?_⟩
        intro x hx
        rcases List.mem_cons.mp hx with rfl | hx
        · exact h
        · exact hnone x hx
      · rintro ⟨l₁, l₂, heq, hs, hnone⟩
        cases l₁ with
        | nil =>
          obtain ⟨rfl, -⟩ : a = s ∧ rest = l₂ := by simpa using heq
          exact absurd hs h
        | cons b l₁ =>
          obtain ⟨rfl, hrest⟩ : a = b ∧ rest = l₁ ++ s :: l₂ := by simpa using heq
          exact ⟨l₁, l₂, hrest, hs, fun x hx => hnone x (List.mem_cons_of_mem a hx)⟩

lemma find_scene_unique (m : List SceneRecord) (t : ℚ) (s : SceneRecord)
    (hmem : s ∈ m) (hc : scene_contains s t)
    (huniq : ∀ x ∈ m, scene_contains x t → x = s) :
    find_scene_for_timestamp m t = some s := by
  induction m with
  | nil => cases hmem
  | cons a rest ih =>
    rw [find_scene_cons]
    by_cases h : scene_contains a t
    · rw [if_pos h, huniq a (List.mem_cons_self a rest) h]
    · rw [if_neg h]
      have hmem' : s ∈ rest := by
        rcases List.mem_cons.mp hmem with rfl | hm
        · exact absurd hc h
        · exact hm
      exact ih hmem' (fun x hx hcx => huniq x (List.mem_cons_of_mem a hx) hcx)

/-- C6: `find_scene_for_timestamp` returns `some s` exactly when `s` is the
first scene in manifest order whose half-open interval `[start_time,
end_time)` contains the timestamp; in particular it returns the scene when
exactly one scene contains the timestamp, and returns `none` (SceneNotFound)
when the timestamp lies outside every scene's interval. -/
theorem c6_find_scene_spec (m : List SceneRecord) (t : ℚ) :
    (∀ s, find_scene_for_timestamp m t = some s ↔
      ∃ l₁ l₂, m = l₁ ++ s :: l₂ ∧ scene_contains s t
        ∧ ∀ x ∈ l₁, ¬ scene_contains x t)
    ∧ (find_scene_for_timestamp m t = none ↔ ∀ x ∈ m, ¬ scene_contains x t)
    ∧ (∀ s, s ∈ m → scene_contains s t →
        (∀ x ∈ m, scene_contains x t → x = s) →
        find_scene_for_timestamp m t = some s) :=
  ⟨fun s => find_scene_some_iff m t s, find_scene_none_iff m t,
    fun s h1 h2 h3 => find_scene_unique m t s h1 h2 h3⟩

/-- Witness for C6: in the example manifest, timestamp 3.0 is contained in
scene 1 only, and resolution returns scene 1. -/
theorem c6_find_scene_spec_witness :
    find_scene_for_timestamp exManifest 3 = some exScene1 :=
  (c6_find_scene_spec exManifest 3).2.2 exScene1 (by decide) (by decide)
    (by decide)

/-- C2 counterexample: in the example manifest, the scene with
`scene_number = 2` does get a previous scene (`current_index = 1 > 0`, so
`scene_info[0]` is returned), refuting the claim that scene numbers 1 and 2
both yield no previous scene. -/
theorem c2_counterexample :
    exScene2.scene_number = 2
    ∧ get_context_from_previous_scene exManifest exScene2 = some exScene1
    ∧ get_context_from_previous_scene exManifest exScene2 ≠ none := by
  decide

/-- C2 amended: in a manifest whose scenes sit at index `scene_number - 1`
(1-based contiguous numbering), the lookup never raises — the crash-faithful
model agrees with the `Option`-valued projection — and
`get_context_from_previous_scene` returns no previous scene exactly when
`scene_number ≤ 1`; for every scene with `scene_number ≥ 2` (including 2) a
previous scene is attached, namely the manifest entry at index
`scene_number - 2`. -/
theorem c2_amended (m : List SceneRecord) (s : SceneRecord)
    (horder : ∀ (i : ℕ) (h : i < m.length),
      (m.get ⟨i, h⟩).scene_number = (i : ℤ) + 1)
    (hmem : s ∈ m) :
    get_context_from_previous_scene_checked m s
      = Except.ok (get_context_from_previous_scene m s)
    ∧ (get_context_from_previous_scene m s = none ↔ s.scene_number ≤ 1)
    ∧ (2 ≤ s.scene_number →
        ∃ prev, get_context_from_previous_scene m s = some prev
          ∧ m.get? (s.scene_number - 2).toNat = some prev) := by
  obtain ⟨⟨j, hj⟩, rfl⟩ := List.mem_iff_get.mp hmem
  have hsn := horder j hj
  by_cases h2 : 2 ≤ (m.get ⟨j, hj⟩).scene_number
  · have hpos : 0 < (m.get ⟨j, hj⟩).scene_number - 1 := by omega
    have hidx : ((m.get ⟨j, hj⟩).scene_number - 1 - 1).toNat = j - 1 := by
      omega
    have hidx2 : ((m.get ⟨j, hj⟩).scene_number - 2).toNat = j - 1 := by omega
    have hlt : j - 1 < m.length := by omega
    have hget : m.get? (j - 1) = some (m.get ⟨j - 1, hlt⟩) :=
      List.get?_eq_get hlt
    have hmain : get_context_from_previous_scene m (m.get ⟨j, hj⟩)
        = some (m.get ⟨j - 1, hlt⟩) := by
      simp only [get_context_from_previous_scene, if_pos hpos, hidx, hget]
    refine ⟨?_, ?_, ?_⟩
    · simp only [get_context_from_previous_scene_checked, if_pos hpos, hidx,
        hget, hmain]
    · rw [hmain]
      constructor
      · intro h; simp at h
      · intro h; exact absurd h (by omega)
    · intro _
      exact ⟨m.get ⟨j - 1, hlt⟩, hmain, by rw [hidx2]; exact hget⟩
  · have h1 : (m.get ⟨j, hj⟩).scene_number ≤ 1 := by omega
    have hneg : ¬ (0 < (m.get ⟨j, hj⟩).scene_number - 1) := by omega
    have hmain : get_context_from_previous_scene m (m.get ⟨j, hj⟩) = none := by
      simp only [get_context_from_previous_scene, if_neg hneg]
    refine ⟨?_, ?_, ?_⟩
    · simp only [get_context_from_previous_scene_checked, if_neg hneg, hmain]
    · rw [hmain]; exact iff_of_true rfl h1
    · intro h; exact absurd h (by omega)

/-- Witness for C2 amended: in the example manifest, scene 2 (the smallest
scene number the original claim got wrong) already has a previous scene
attached, the lookup does not raise, and the `none` condition is
equivalent to `scene_number ≤ 1`. -/
theorem c2_amended_witness :
    get_context_from_previous_scene_checked exManifest exScene2
      = Except.ok (get_context_from_previous_scene exManifest exScene2)
    ∧ (get_context_from_previous_scene exManifest exScene2 = none
        ↔ exScene2.scene_number ≤ 1)
    ∧ (2 ≤ exScene2.scene_number →
        ∃ prev, get_context_from_previous_scene exManifest exScene2
            = some prev
          ∧ exManifest.get? (exScene2.scene_number - 2).toNat = some prev) :=
  c2_amended exManifest exScene2 (by decide) (by decide)

/-- C3: in a manifest whose scenes sit at index `scene_number - 1` (1-based
contiguous numbering), every scene with `scene_number ≥ 3` gets the
manifest element at index `scene_number - 2` as its previous scene. -/
theorem c3_previous_by_index (m : List SceneRecord) (s : SceneRecord)
    (horder : ∀ (i : ℕ) (h : i < m.length),
      (m.get ⟨i, h⟩).scene_number = (i : ℤ) + 1)
    (hmem : s ∈ m) (h3 : 3 ≤ s.scene_number) :
    ∃ prev, get_context_from_previous_scene m s = some prev
      ∧ m.get? (s.scene_number - 2).toNat = some prev := by
  obtain ⟨⟨j, hj⟩, rfl⟩ := List.mem_iff_get.mp hmem
  have hsn := horder j hj
  have hpos : 0 < (m.get ⟨j, hj⟩).scene_number - 1 := by omega
  have hidx : ((m.get ⟨j, hj⟩).scene_number - 1 - 1).toNat = j - 1 := by omega
  have hidx2 : ((m.get ⟨j, hj⟩).scene_number - 2).toNat = j - 1 := by omega
  have hlt : j - 1 < m.length := by omega
  refine ⟨m.get ⟨j - 1, hlt⟩, ?_, ?_⟩
  · simp only [get_context_from_previous_scene, if_pos hpos, hidx]
    exact List.get?_eq_get hlt
  · rw [hidx2]
    exact List.get?_eq_get hlt

/-- Witness for C3: in the example manifest, scene 3's previous scene is
the entry at index 1, namely scene 2. -/
theorem c3_previous_by_index_witness :
    ∃ prev, get_context_from_previous_scene exManifest exScene3 = some prev
      ∧ exManifest.get? (exScene3.scene_number - 2).toNat = some prev :=
  c3_previous_by_index exManifest exScene3 (by decide) (by decide) (by decide)

/-- C1 counterexample: in the example manifest, timestamp 13.5 resolves to
scene 3, but `get_context_from_previous_scene` does not return scene 1 (the
record at manifest index 0): `current_index = 2`, and `scene_info[1]` is
returned instead. -/
theorem c1_counterexample :
    find_scene_for_timestamp exManifest (27/2) = some exScene3
    ∧ get_context_from_previous_scene exManifest exScene3 ≠ some exScene1
    ∧ exManifest.get? 0 = some exScene1 := by
  refine ⟨?_, by decide, by decide⟩
  norm_num [find_scene_for_timestamp, exManifest, exScene1, exScene2, exScene3]

/-- C1 amended: timestamp 13.5 resolves to scene 3, and
`get_context_from_previous_scene` returns scene 2 — the record at manifest
index 1, the scene immediately before the current one. -/
theorem c1_amended :
    find_scene_for_timestamp exManifest (27/2) = some exScene3
    ∧ get_context_from_previous_scene exManifest exScene3 = some exScene2
    ∧ exManifest.get? 1 = some exScene2 := by
  refine ⟨?_, by decide, by decide⟩
  norm_num [find_scene_for_timestamp, exManifest, exScene1, exScene2, exScene3]

/-- C4 counterexample: with the manifest file absent the query does fail
with the manifest-not-found error, but `main` still writes a result file —
containing that error text — at the output path, refuting "no result file
is written". -/
theorem c4_counterexample :
    (envNoManifest.manifestAt (scene_info_path "vid")).isNone = true
    ∧ main envNoManifest "vid" 3 "q"
        = Except.ok (output_file "vid" 3,
            "Scene information not found for this video.") :=
  ⟨rfl, rfl⟩

/-- C4 amended: when the manifest file for the requested video is absent,
the query returns the manifest-not-found error message, and the standalone
runner writes that error message to the result file (a result file is
written, holding the error text rather than an answer). -/
theorem c4_amended (env : Env) (v q : String) (t : ℚ)
    (h : env.manifestAt (scene_info_path v) = none) :
    query_video_scene_with_api env v t q
      = some "Scene information not found for this video."
    ∧ main env v t q
      = Except.ok (output_file v t,
          "Scene information not found for this video.") := by
  have hq : query_video_scene_with_api env v t q
      = some "Scene information not found for this video." := by
    simp [query_video_scene_with_api, h]
  exact ⟨hq, by simp [main, hq]⟩

/-- Witness for C4 amended at a concrete environment with no manifest. -/
theorem c4_amended_witness :
    query_video_scene_with_api envNoManifest "vid" 3 "q"
      = some "Scene information not found for this video."
    ∧ main envNoManifest "vid" 3 "q"
      = Except.ok (output_file "vid" 3,
          "Scene information not found for this video.") :=
  c4_amended envNoManifest "vid" "q" 3 rfl

/-- C5: the path the standalone executor writes (`output_file`) and the
path the serving layer reads back (`response_file`) are never the same
string — the server path carries the extra `videos/{video_id}/` directory
prefix; at video id "vid" and timestamp 13.5 they are
"vid_query_13s.txt" and "videos/vid/vid_query_13s.txt". -/
theorem c5_result_paths :
    (∀ v t, response_file v t ≠ output_file v t)
    ∧ output_file "vid" (27/2) = "vid_query_13s.txt"
    ∧ response_file "vid" (27/2) = "videos/vid/vid_query_13s.txt" := by
  have h13 : intTrunc (27/2) = 13 := by norm_num [intTrunc]
  refine ⟨?_, ?_, ?_⟩
  · intro v t heq
    have hlen := congrArg String.length heq
    have h7 : ("videos/" : String).length = 7 := by decide
    have h1 : ("/" : String).length = 1 := by decide
    simp [response_file, output_file, String.length_append, h7, h1] at hlen
  · rw [output_file, h13]; decide
  · rw [response_file, h13]; decide

/-- C9 counterexample: with a remote call returning one choice whose
message content is null, the executor returns Python `None` as the answer,
which is not the error-string outcome produced when the remote call raises
— refuting "same user-facing error outcome". -/
theorem c9_counterexample :
    query_video_scene_with_api envNullContent "vid" 3 "q" = none
    ∧ query_video_scene_with_api envApiFailure "vid" 3 "q"
        = some "Error calling API: boom"
    ∧ (none : Option String) ≠ some "Error calling API: boom" := by
  decide

/-- C9 amended: an exception raised by the remote call — including the
index error raised when the response carries no choices — is converted to
the "Error calling API: ..." error string, but a response whose first
choice has null content is returned unchanged (Python `None`) as the
answer, not converted to an error. -/
theorem c9_amended :
    (∀ e, extract_response (ApiResult.failure e)
        = some ("Error calling API: " ++ e))
    ∧ extract_response (ApiResult.success ⟨[]⟩)
        = some "Error calling API: list index out of range"
    ∧ (∀ (c : Choice) (rest : List Choice),
        extract_response (ApiResult.success ⟨c :: rest⟩)
          = c.message.content) := by
  refine ⟨fun e => rfl, by decide, fun c rest => rfl⟩

end InfoBot
